import Mathlib

/-!
Shallow embedding of the Security-Validator repository (two analyzers:
`checkCookies` in src/validators/cookie-checker.js and `checkHSTS` in the
second source file).  The network fetch is an external collaborator; its
outcome is passed in explicitly, either as a parsed response (the header
values the analyzers read) or as a failure message (the `catch` branch).
All string handling mirrors the JavaScript operations on ASCII input,
implemented by structural recursion on character lists so every
definition reduces inside the kernel: `split` is `splitOnChar`, `trim`
is `trimChars`, `toLowerCase` is `lowerStr`, `substring(0,100)` is a
100-character take, the regexes `/includeSubDomains/i` and `/preload/i`
are case-insensitive substring scans, and `/max-age=(\d+)/i` is an
explicit left-to-right scan for a case-insensitive `max-age=` followed
by a digit run.
-/

/-- The `severity` field of a Finding: `ok`, `warning`, `critical` or `error`. -/
inductive Severity where
  | ok
  | warning
  | critical
  | error
deriving DecidableEq, Repr

/-- One entry of the `cookies` list built by `checkCookies`. -/
structure CookieRecord where
  name : String
  secure : Bool
  httpOnly : Bool
  sameSite : Bool
deriving DecidableEq, Repr

/-- One entry of the `issues` list built by `checkCookies`. -/
structure CookieIssue where
  name : String
  issues : List String
  raw : String
deriving DecidableEq, Repr

/-- The Finding returned by `checkCookies`.  Fields absent from a given
JavaScript return object are modelled by their neutral value (`[]`, `0`,
`none`). -/
structure CookieFinding where
  success : Bool
  domain : String
  cookieCount : Nat
  cookies : List CookieRecord
  issues : List CookieIssue
  issueCount : Nat
  severity : Severity
  status : String
  message : String
  error : Option String
deriving DecidableEq, Repr

/-- The `details` object of the HSTS Finding. -/
structure HstsDetails where
  header : Option String
  maxAge : Option Nat
  maxAgeDays : Option Nat
  includeSubDomains : Bool
  preload : Bool
  issues : List String
deriving DecidableEq, Repr

/-- The Finding returned by `checkHSTS`. -/
structure HstsFinding where
  success : Bool
  domain : String
  enabled : Bool
  severity : Severity
  status : String
  message : String
  details : HstsDetails
  error : Option String
deriving DecidableEq, Repr

/-- The parts of an HTTP response the two analyzers read:
`response.headers['set-cookie']` (an array, `[]` when absent) and
`response.headers['strict-transport-security']` (a string or absent).
`otherHeaders` carries every header neither analyzer looks at. -/
structure HttpResponse where
  setCookie : List String
  strictTransportSecurity : Option String
  otherHeaders : List (String × String)
deriving DecidableEq, Repr

/-! ## String primitives (structural, so they reduce in the kernel) -/

/-- JavaScript `str.split(sep)` for a one-character separator. -/
def splitOnChar (sep : Char) : List Char → List (List Char)
  | [] => [[]]
  | c :: cs =>
    let r := splitOnChar sep cs
    if c == sep then [] :: r
    else (c :: r.headD []) :: r.tail

/-- ASCII whitespace stripped by JavaScript `trim()`. -/
def isJsSpace (c : Char) : Bool :=
  c == ' ' || c == '\t' || c == '\n' || c == '\r' || c == '\x0b' || c == '\x0c'

/-- JavaScript `str.trim()` on ASCII input. -/
def trimChars (l : List Char) : List Char :=
  ((l.dropWhile isJsSpace).reverse.dropWhile isJsSpace).reverse

/-- Does `l` start with `pat` (character lists, exact match)? -/
def charsStartWith : List Char → List Char → Bool
  | _, [] => true
  | [], _ :: _ => false
  | a :: as, b :: bs => a == b && charsStartWith as bs

/-- JavaScript `str.toLowerCase()` on ASCII input. -/
def lowerStr (s : String) : String :=
  (s.data.map Char.toLower).asString

/-! ## Cookie analyzer (src/validators/cookie-checker.js) -/

/-- `cookieStr.split(';').map(part => part.trim())`. -/
def cookieParts (s : String) : List String :=
  (splitOnChar ';' s.data).map (fun l => (trimChars l).asString)

/-- `cookieParts.some(part => part.toLowerCase() === 'secure')`. -/
def hasSecure (s : String) : Bool :=
  (cookieParts s).any (fun part => lowerStr part = "secure")

/-- `cookieParts.some(part => part.toLowerCase() === 'httponly')`. -/
def hasHttpOnly (s : String) : Bool :=
  (cookieParts s).any (fun part => lowerStr part = "httponly")

/-- `cookieParts.some(part => part.toLowerCase().startsWith('samesite'))`. -/
def hasSameSite (s : String) : Bool :=
  (cookieParts s).any (fun part => charsStartWith (lowerStr part).data "samesite".data)

/-- The per-cookie `cookieIssues` array: one message per missing attribute,
in source order. -/
def cookieIssuesOf (s : String) : List String :=
  (if hasSecure s then [] else ["Missing Secure flag"]) ++
  (if hasHttpOnly s then [] else ["Missing HttpOnly flag"]) ++
  (if hasSameSite s then [] else ["Missing SameSite attribute"])

/-- First `n` characters of `s` (JavaScript `s.substring(0, n)` on ASCII). -/
def strTake (s : String) (n : Nat) : String :=
  (s.data.take n).asString

/-- `name` extracted from the first segment (`nameValue.split('=')[0]`). -/
def cookieName (s : String) : String :=
  ((splitOnChar '=' ((cookieParts s).headD "").data).headD []).asString

/-- `name || \x7bCookie index+1\x7d`: the placeholder kicks in when the
extracted name is the empty string (falsy). -/
def displayName (index : Nat) (s : String) : String :=
  if cookieName s = "" then "Cookie " ++ toString (index + 1) else cookieName s

/-- The `raw` field of an issue entry:
`cookieStr.substring(0, 100) + (cookieStr.length > 100 ? '...' : '')`. -/
def rawOf (s : String) : String :=
  strTake s 100 ++ (if s.length > 100 then "..." else "")

/-- One iteration of the `forEach` body: the cookie record pushed onto
`cookies` and, when the cookie has issues, the entry pushed onto `issues`. -/
def analyzeCookie (index : Nat) (s : String) : CookieRecord × Option CookieIssue :=
  ({ name := displayName index s
     secure := hasSecure s
     httpOnly := hasHttpOnly s
     sameSite := hasSameSite s },
   if (cookieIssuesOf s).length > 0 then
     some { name := displayName index s, issues := cookieIssuesOf s, raw := rawOf s }
   else none)

/-- The whole `forEach` loop, threading the 0-based index. -/
def analyzeAll (index : Nat) : List String → List (CookieRecord × Option CookieIssue)
  | [] => []
  | h :: t => analyzeCookie index h :: analyzeAll (index + 1) t

/-- `checkCookies` from the point where the response is available: builds
the Finding from the list of `Set-Cookie` header values. -/
def checkCookiesResponse (domain : String) (cookieHeaders : List String) : CookieFinding :=
  if cookieHeaders.length = 0 then
    { success := true
      domain := domain
      cookieCount := 0
      cookies := []
      issues := []
      issueCount := 0
      severity := .ok
      status := "No Cookies Set"
      message := "No cookies found on this domain"
      error := none }
  else
    let pairs := analyzeAll 0 cookieHeaders
    let cookies := pairs.map Prod.fst
    let issues := pairs.filterMap Prod.snd
    let noSecureCookies := issues.filter (fun i => i.issues.contains "Missing Secure flag")
    let severity : Severity :=
      if issues.length > 0 then
        if noSecureCookies.length = cookieHeaders.length then .critical else .warning
      else .ok
    let status :=
      if issues.length > 0 then
        if noSecureCookies.length = cookieHeaders.length then "Critical Security Issues"
        else "Security Issues Found"
      else "All Cookies Secure"
    { success := true
      domain := domain
      cookieCount := cookieHeaders.length
      cookies := cookies
      issues := issues
      issueCount := issues.length
      severity := severity
      status := status
      message :=
        if issues.length > 0 then
          "Found " ++ toString issues.length ++
            " cookie(s) with security issues out of " ++
            toString cookieHeaders.length ++ " total"
        else "All " ++ toString cookieHeaders.length ++ " cookies are properly secured"
      error := none }

/-- `checkCookies` at its boundary: a successful fetch delivers the
response, a failure carries the error message and lands in the `catch`
branch. -/
def checkCookies (domain : String) (fetched : Except String HttpResponse) : CookieFinding :=
  match fetched with
  | .ok resp => checkCookiesResponse domain resp.setCookie
  | .error msg =>
    { success := false
      domain := domain
      cookieCount := 0
      cookies := []
      issues := []
      issueCount := 0
      severity := .error
      status := "Error"
      message := "Failed to check cookies: " ++ msg
      error := some msg }

/-! ## HSTS analyzer (checkHSTS, second source file) -/

/-- Does `l` contain `pat` as a contiguous run? -/
def charsContain : List Char → List Char → Bool
  | [], pat => pat.isEmpty
  | a :: as, pat => charsStartWith (a :: as) pat || charsContain as pat

/-- Case-insensitive substring test: `/pat/i.test(s)` for a lowercase
literal `pat`. -/
def containsCI (s pat : String) : Bool :=
  charsContain (s.data.map Char.toLower) pat.data

/-- Leading digit run of `l`. -/
def takeDigits : List Char → List Char
  | [] => []
  | c :: cs => if c.isDigit then c :: takeDigits cs else []

/-- Numeric value of a digit string. -/
def digitsVal (l : List Char) : Nat :=
  l.foldl (fun a c => a * 10 + (c.toNat - 48)) 0

/-- Attempt of the regex `/max-age=(\d+)/i` at the current position:
a case-insensitive `max-age=` followed by at least one digit captures
the maximal digit run. -/
def maxAgeAt (l : List Char) : Option Nat :=
  if charsStartWith (l.map Char.toLower) "max-age=".data then
    match takeDigits (l.drop 8) with
    | [] => none
    | ds => some (digitsVal ds)
  else none

/-- `hstsHeader.match(/max-age=(\d+)/i)`: first position where the
pattern matches, scanning left to right. -/
def findMaxAge : List Char → Option Nat
  | [] => none
  | c :: cs =>
    match maxAgeAt (c :: cs) with
    | some n => some n
    | none => findMaxAge cs

/-- `maxAgeMatch ? parseInt(maxAgeMatch[1]) : 0`. -/
def parseMaxAge (s : String) : Nat :=
  (findMaxAge s.data).getD 0

/-- The max-age tier of the severity logic, before the
`includeSubDomains` adjustment: `(severity, status, issues)` as set by
the first `if`/`else if` chain. -/
def hstsTier (maxAge maxAgeDays : Nat) : Severity × String × List String :=
  if maxAge = 0 then
    (.critical, "HSTS Misconfigured", ["max-age is 0 (effectively disabled)"])
  else if maxAge < 31536000 then
    (.warning, "HSTS Weak Configuration",
      ["max-age is " ++ toString maxAgeDays ++ " days (recommended: at least 365 days)"])
  else
    (.ok, "HSTS Enabled", [])

/-- The Finding returned when `!hstsHeader` (header missing, or the empty
string, which is falsy in JavaScript). -/
def hstsNotEnabled (domain : String) : HstsFinding :=
  { success := true
    domain := domain
    enabled := false
    severity := .critical
    status := "HSTS Not Enabled"
    message := "HTTP Strict Transport Security policy is not enabled. This allows potential man-in-the-middle attacks."
    details :=
      { header := none
        maxAge := none
        maxAgeDays := none
        includeSubDomains := false
        preload := false
        issues := [] }
    error := none }

/-- The Finding built from a present (truthy) header value `s`. -/
def hstsFromHeader (domain s : String) : HstsFinding :=
  let maxAge := parseMaxAge s
  let includeSubDomains := containsCI s "includesubdomains"
  let preload := containsCI s "preload"
  let maxAgeDays := maxAge / 86400
  let tier := hstsTier maxAge maxAgeDays
  let severity := if includeSubDomains then tier.1
    else if tier.1 = .ok then .warning else tier.1
  let issues := if includeSubDomains then tier.2.2
    else tier.2.2 ++ ["includeSubDomains directive not set"]
  { success := true
    domain := domain
    enabled := true
    severity := severity
    status := tier.2.1
    message :=
      if issues.length > 0 then
        "HSTS is enabled but has " ++ toString issues.length ++ " issue(s)"
      else "HSTS is properly configured (max-age: " ++ toString maxAgeDays ++ " days)"
    details :=
      { header := some s
        maxAge := some maxAge
        maxAgeDays := some maxAgeDays
        includeSubDomains := includeSubDomains
        preload := preload
        issues := issues }
    error := none }

/-- `checkHSTS` from the point where the response is available. -/
def checkHSTSResponse (domain : String) (resp : HttpResponse) : HstsFinding :=
  match resp.strictTransportSecurity with
  | none => hstsNotEnabled domain
  | some s => if s = "" then hstsNotEnabled domain else hstsFromHeader domain s

/-- `checkHSTS` at its boundary, the fetch outcome passed in explicitly. -/
def checkHSTS (domain : String) (fetched : Except String HttpResponse) : HstsFinding :=
  match fetched with
  | .ok resp => checkHSTSResponse domain resp
  | .error msg =>
    { success := false
      domain := domain
      enabled := false
      severity := .error
      status := "Error"
      message := "Failed to check HSTS: " ++ msg
      details :=
        { header := none
          maxAge := none
          maxAgeDays := none
          includeSubDomains := false
          preload := false
          issues := [] }
      error := some msg }

/-! ## Helper lemmas -/

theorem analyzeAll_length (i : Nat) (hs : List String) :
    (analyzeAll i hs).length = hs.length := by
  induction hs generalizing i with
  | nil => rfl
  | cons h t ih => simp [analyzeAll, ih]

theorem charsStartWith_refl (l : List Char) : charsStartWith l l = true := by
  induction l with
  | nil => rfl
  | cons a as ih => simp [charsStartWith, ih]

theorem charsContain_self (b : List Char) : charsContain b b = true := by
  cases b with
  | nil => rfl
  | cons x xs => simp [charsContain, charsStartWith_refl]

theorem charsContain_append_right (a b : List Char) :
    charsContain (a ++ b) b = true := by
  induction a with
  | nil => simpa using charsContain_self b
  | cons x xs ih => simp [charsContain, ih]

/-- C3: if the Strict-Transport-Security header is absent, the HSTS
Finding has severity `critical`, status "HSTS Not Enabled" and
`enabled = false`, whatever the other headers of the response are. -/
theorem hsts_absent_critical (domain : String) (resp : HttpResponse)
    (h : resp.strictTransportSecurity = none) :
    (checkHSTSResponse domain resp).severity = Severity.critical ∧
    (checkHSTSResponse domain resp).status = "HSTS Not Enabled" ∧
    (checkHSTSResponse domain resp).enabled = false := by
  simp [checkHSTSResponse, h, hstsNotEnabled]

theorem hsts_absent_critical_witness :
    (checkHSTSResponse "example.com"
        { setCookie := ["a=1"]
          strictTransportSecurity := none
          otherHeaders := [("x-frame-options", "DENY")] }).severity = Severity.critical ∧
    (checkHSTSResponse "example.com"
        { setCookie := ["a=1"]
          strictTransportSecurity := none
          otherHeaders := [("x-frame-options", "DENY")] }).status = "HSTS Not Enabled" ∧
    (checkHSTSResponse "example.com"
        { setCookie := ["a=1"]
          strictTransportSecurity := none
          otherHeaders := [("x-frame-options", "DENY")] }).enabled = false :=
  hsts_absent_critical "example.com" _ rfl

/-- C5: every fetch failure produces a structured Finding from each
analyzer with `success = false`, severity `error`, and a non-empty
message embedding the failure description; both analyzers are total
functions, so no failure propagates. -/
theorem fetch_failure_structured (domain msg : String) :
    (checkCookies domain (Except.error msg)).success = false ∧
    (checkCookies domain (Except.error msg)).severity = Severity.error ∧
    (checkCookies domain (Except.error msg)).message = "Failed to check cookies: " ++ msg ∧
    (checkCookies domain (Except.error msg)).message.length > 0 ∧
    charsContain ((checkCookies domain (Except.error msg)).message).data msg.data = true ∧
    (checkHSTS domain (Except.error msg)).success = false ∧
    (checkHSTS domain (Except.error msg)).severity = Severity.error ∧
    (checkHSTS domain (Except.error msg)).message = "Failed to check HSTS: " ++ msg ∧
    (checkHSTS domain (Except.error msg)).message.length > 0 ∧
    charsContain ((checkHSTS domain (Except.error msg)).message).data msg.data = true := by
  refine ⟨rfl, rfl, rfl, ?_, ?_, rfl, rfl, rfl, ?_, ?_⟩
  · show ("Failed to check cookies: " ++ msg).length > 0
    rw [String.length_append]
    have h : ("Failed to check cookies: " : String).length = 25 := rfl
    omega
  · show charsContain ("Failed to check cookies: " ++ msg).data msg.data = true
    rw [String.data_append]
    exact charsContain_append_right _ _
  · show ("Failed to check HSTS: " ++ msg).length > 0
    rw [String.length_append]
    have h : ("Failed to check HSTS: " : String).length = 22 := rfl
    omega
  · show charsContain ("Failed to check HSTS: " ++ msg).data msg.data = true
    rw [String.data_append]
    exact charsContain_append_right _ _

/-- C9: for every successfully fetched response, `cookieCount` and the
length of the `cookies` list both equal the number of `Set-Cookie`
header occurrences; no occurrence is skipped or merged. -/
theorem cookie_count_invariant (domain : String) (resp : HttpResponse) :
    (checkCookies domain (Except.ok resp)).cookieCount = resp.setCookie.length ∧
    (checkCookies domain (Except.ok resp)).cookies.length = resp.setCookie.length := by
  show (checkCookiesResponse domain resp.setCookie).cookieCount = _ ∧
    (checkCookiesResponse domain resp.setCookie).cookies.length = _
  by_cases h : resp.setCookie.length = 0
  · simp [checkCookiesResponse, h]
  · simp [checkCookiesResponse, h, analyzeAll_length]

/-- C8: the `raw` field of every issue entry is the first 100 characters
of the cookie header followed by "..." when the header exceeds 100
characters, and the header verbatim otherwise. -/
theorem raw_truncation (i : Nat) (s : String) (issue : CookieIssue)
    (h : (analyzeCookie i s).2 = some issue) :
    (s.length > 100 → issue.raw = strTake s 100 ++ "...") ∧
    (s.length ≤ 100 → issue.raw = s) := by
  have hraw : issue.raw = rawOf s := by
    by_cases hc : (cookieIssuesOf s).length > 0
    · simp [analyzeCookie, hc] at h
      rw [← h]
    · simp [analyzeCookie, hc] at h
  constructor
  · intro hlen
    rw [hraw, rawOf, if_pos hlen]
  · intro hlen
    rw [hraw, rawOf, if_neg (by omega)]
    have htake : s.data.take 100 = s.data :=
      List.take_of_length_le hlen
    have h2 : s.data.asString = s := String.asString_toList s
    rw [strTake, htake, h2]
    simp

theorem raw_truncation_witness :
    "a=b".length ≤ 100 ∧
    ({ name := "a"
       issues := ["Missing Secure flag", "Missing HttpOnly flag", "Missing SameSite attribute"]
       raw := "a=b" } : CookieIssue).raw = "a=b" :=
  ⟨by decide,
   (raw_truncation 0 "a=b"
      { name := "a"
        issues := ["Missing Secure flag", "Missing HttpOnly flag", "Missing SameSite attribute"]
        raw := "a=b" } (by decide)).2 (by decide)⟩

theorem hstsFromHeader_severity (domain s : String) :
    (hstsFromHeader domain s).severity =
      (if containsCI s "includesubdomains" then
        (hstsTier (parseMaxAge s) (parseMaxAge s / 86400)).1
      else if (hstsTier (parseMaxAge s) (parseMaxAge s / 86400)).1 = Severity.ok then
        Severity.warning
      else (hstsTier (parseMaxAge s) (parseMaxAge s / 86400)).1) := rfl

theorem hstsFromHeader_status (domain s : String) :
    (hstsFromHeader domain s).status =
      (hstsTier (parseMaxAge s) (parseMaxAge s / 86400)).2.1 := rfl

theorem hstsFromHeader_issues (domain s : String) :
    (hstsFromHeader domain s).details.issues =
      (if containsCI s "includesubdomains" then
        (hstsTier (parseMaxAge s) (parseMaxAge s / 86400)).2.2
      else (hstsTier (parseMaxAge s) (parseMaxAge s / 86400)).2.2 ++
        ["includeSubDomains directive not set"]) := rfl

theorem checkHSTSResponse_present (domain : String) (resp : HttpResponse) (s : String)
    (hp : resp.strictTransportSecurity = some s) (hne : s ≠ "") :
    checkHSTSResponse domain resp = hstsFromHeader domain s := by
  simp [checkHSTSResponse, hp, hne]

/-- C2: with the header present, `maxAgeSeconds = 0` gives severity
`critical`, status "HSTS Misconfigured" and an issue containing
"effectively disabled" (whatever else the header holds, in particular
with `includeSubDomains` present); `0 < maxAgeSeconds < 31536000` gives
severity `warning`, status "HSTS Weak Configuration" and an issue naming
the actual day count; otherwise the severity before the
`includeSubDomains` rule is `ok` with status "HSTS Enabled". -/
theorem hsts_tier_classification (domain : String) (resp : HttpResponse) (s : String)
    (hp : resp.strictTransportSecurity = some s) (hne : s ≠ "") :
    (parseMaxAge s = 0 →
      (checkHSTSResponse domain resp).severity = Severity.critical ∧
      (checkHSTSResponse domain resp).status = "HSTS Misconfigured" ∧
      "max-age is 0 (effectively disabled)" ∈ (checkHSTSResponse domain resp).details.issues ∧
      charsContain "max-age is 0 (effectively disabled)".data "effectively disabled".data = true) ∧
    (parseMaxAge s ≠ 0 → parseMaxAge s < 31536000 →
      (checkHSTSResponse domain resp).severity = Severity.warning ∧
      (checkHSTSResponse domain resp).status = "HSTS Weak Configuration" ∧
      ("max-age is " ++ toString (parseMaxAge s / 86400) ++
        " days (recommended: at least 365 days)") ∈
          (checkHSTSResponse domain resp).details.issues) ∧
    (31536000 ≤ parseMaxAge s →
      (checkHSTSResponse domain resp).status = "HSTS Enabled" ∧
      (hstsTier (parseMaxAge s) (parseMaxAge s / 86400)).1 = Severity.ok) := by
  rw [checkHSTSResponse_present domain resp s hp hne]
  refine ⟨?_, ?_, ?_⟩
  · intro h0
    rw [hstsFromHeader_severity, hstsFromHeader_status, hstsFromHeader_issues]
    simp only [hstsTier, h0, if_pos rfl]
    refine ⟨?_, by simp, ?_, by decide⟩
    · cases hsub : containsCI s "includesubdomains" <;> simp
    · cases hsub : containsCI s "includesubdomains" <;> simp
  · intro h0 hlt
    rw [hstsFromHeader_severity, hstsFromHeader_status, hstsFromHeader_issues]
    simp only [hstsTier, if_neg h0, if_pos hlt]
    refine ⟨?_, by simp, ?_⟩
    · cases hsub : containsCI s "includesubdomains" <;> simp
    · cases hsub : containsCI s "includesubdomains" <;> simp
  · intro hge
    rw [hstsFromHeader_status]
    have h0 : ¬ parseMaxAge s = 0 := by omega
    have hlt : ¬ parseMaxAge s < 31536000 := by omega
    simp [hstsTier, h0, hlt]

theorem hsts_tier_classification_witness :
    parseMaxAge "max-age=0; includeSubDomains" = 0 ∧
    (checkHSTSResponse "example.com"
        { setCookie := []
          strictTransportSecurity := some "max-age=0; includeSubDomains"
          otherHeaders := [] }).severity = Severity.critical ∧
    (checkHSTSResponse "example.com"
        { setCookie := []
          strictTransportSecurity := some "max-age=0; includeSubDomains"
          otherHeaders := [] }).status = "HSTS Misconfigured" ∧
    "max-age is 0 (effectively disabled)" ∈ (checkHSTSResponse "example.com"
        { setCookie := []
          strictTransportSecurity := some "max-age=0; includeSubDomains"
          otherHeaders := [] }).details.issues ∧
    charsContain "max-age is 0 (effectively disabled)".data "effectively disabled".data = true :=
  ⟨by decide,
   (hsts_tier_classification "example.com"
      { setCookie := []
        strictTransportSecurity := some "max-age=0; includeSubDomains"
        otherHeaders := [] } "max-age=0; includeSubDomains" rfl (by decide)).1 (by decide)⟩

/-- C4: when `includeSubDomains` is not detected in the header, the rule
only raises an `ok` tier severity to `warning`, leaves `warning` and
`critical` tiers unchanged, and appends the issue "includeSubDomains
directive not set"; in particular `max-age=86400` yields severity
`warning` with exactly two issues. -/
theorem hsts_subdomains_rule (domain : String) (resp : HttpResponse) (s : String)
    (hp : resp.strictTransportSecurity = some s) (hne : s ≠ "")
    (hnosub : containsCI s "includesubdomains" = false) :
    ((hstsTier (parseMaxAge s) (parseMaxAge s / 86400)).1 = Severity.ok →
      (checkHSTSResponse domain resp).severity = Severity.warning) ∧
    ((hstsTier (parseMaxAge s) (parseMaxAge s / 86400)).1 = Severity.warning →
      (checkHSTSResponse domain resp).severity = Severity.warning) ∧
    ((hstsTier (parseMaxAge s) (parseMaxAge s / 86400)).1 = Severity.critical →
      (checkHSTSResponse domain resp).severity = Severity.critical) ∧
    (checkHSTSResponse domain resp).details.issues =
      (hstsTier (parseMaxAge s) (parseMaxAge s / 86400)).2.2 ++
        ["includeSubDomains directive not set"] ∧
    "includeSubDomains directive not set" ∈ (checkHSTSResponse domain resp).details.issues ∧
    ((checkHSTSResponse domain
        { setCookie := []
          strictTransportSecurity := some "max-age=86400"
          otherHeaders := [] }).severity = Severity.warning ∧
     (checkHSTSResponse domain
        { setCookie := []
          strictTransportSecurity := some "max-age=86400"
          otherHeaders := [] }).details.issues.length = 2) := by
  rw [checkHSTSResponse_present domain resp s hp hne]
  rw [hstsFromHeader_severity, hstsFromHeader_issues]
  rw [hnosub]
  refine ⟨?_, ?_, ?_, by simp, by simp, by constructor <;> rfl⟩
  · intro h
    simp [h]
  · intro h
    simp [h]
  · intro h
    simp [h]

theorem hsts_subdomains_rule_witness :
    containsCI "max-age=86400" "includesubdomains" = false ∧
    "includeSubDomains directive not set" ∈ (checkHSTSResponse "example.com"
        { setCookie := []
          strictTransportSecurity := some "max-age=86400"
          otherHeaders := [] }).details.issues ∧
    (checkHSTSResponse "example.com"
        { setCookie := []
          strictTransportSecurity := some "max-age=86400"
          otherHeaders := [] }).severity = Severity.warning ∧
    (checkHSTSResponse "example.com"
        { setCookie := []
          strictTransportSecurity := some "max-age=86400"
          otherHeaders := [] }).details.issues.length = 2 := by
  have h := hsts_subdomains_rule "example.com"
    { setCookie := []
      strictTransportSecurity := some "max-age=86400"
      otherHeaders := [] } "max-age=86400" rfl (by decide) (by decide)
  exact ⟨by decide, h.2.2.2.2.1, h.2.2.2.2.2⟩

theorem findMaxAge_eq_none (l : List Char)
    (h : charsContain (l.map Char.toLower) "max-age=".data = false) :
    findMaxAge l = none := by
  induction l with
  | nil => rfl
  | cons c cs ih =>
    rw [List.map_cons, charsContain] at h
    rw [Bool.or_eq_false_iff] at h
    have hat : maxAgeAt (c :: cs) = none := by
      rw [maxAgeAt, List.map_cons, if_neg (by simp [h.1])]
    rw [findMaxAge, hat, ih h.2]

/-- C7: `maxAgeSeconds` is the value of the first case-insensitive
`max-age=<digits>` occurrence and defaults to 0 when the directive is
absent, so it is always a non-negative integer; `maxAgeDays` is
`floor(maxAgeSeconds / 86400)`; and the header
`max-age=31536000; includeSubDomains` yields `maxAgeDays` 365,
`includeSubDomains` true and severity `ok`. -/
theorem hsts_maxage_parsing (domain : String) (resp : HttpResponse) (s : String)
    (hp : resp.strictTransportSecurity = some s) (hne : s ≠ "") :
    0 ≤ parseMaxAge s ∧
    parseMaxAge s = (findMaxAge s.data).getD 0 ∧
    (charsContain (s.data.map Char.toLower) "max-age=".data = false → parseMaxAge s = 0) ∧
    (checkHSTSResponse domain resp).details.maxAge = some (parseMaxAge s) ∧
    (checkHSTSResponse domain resp).details.maxAgeDays = some (parseMaxAge s / 86400) ∧
    parseMaxAge "max-age=31536000; includeSubDomains" = 31536000 ∧
    (checkHSTSResponse domain
        { setCookie := []
          strictTransportSecurity := some "max-age=31536000; includeSubDomains"
          otherHeaders := [] }).details.maxAgeDays = some 365 ∧
    (checkHSTSResponse domain
        { setCookie := []
          strictTransportSecurity := some "max-age=31536000; includeSubDomains"
          otherHeaders := [] }).details.includeSubDomains = true ∧
    (checkHSTSResponse domain
        { setCookie := []
          strictTransportSecurity := some "max-age=31536000; includeSubDomains"
          otherHeaders := [] }).severity = Severity.ok := by
  rw [checkHSTSResponse_present domain resp s hp hne]
  refine ⟨Nat.zero_le _, rfl, ?_, rfl, rfl, by decide, rfl, rfl, rfl⟩
  intro habs
  rw [parseMaxAge, findMaxAge_eq_none s.data habs]
  rfl

theorem hsts_maxage_parsing_witness :
    (checkHSTSResponse "example.com"
        { setCookie := []
          strictTransportSecurity := some "max-age=31536000; includeSubDomains"
          otherHeaders := [] }).details.maxAge =
      some (parseMaxAge "max-age=31536000; includeSubDomains") ∧
    (checkHSTSResponse "example.com"
        { setCookie := []
          strictTransportSecurity := some "max-age=31536000; includeSubDomains"
          otherHeaders := [] }).details.maxAgeDays = some 365 ∧
    (checkHSTSResponse "example.com"
        { setCookie := []
          strictTransportSecurity := some "max-age=31536000; includeSubDomains"
          otherHeaders := [] }).details.includeSubDomains = true ∧
    (checkHSTSResponse "example.com"
        { setCookie := []
          strictTransportSecurity := some "max-age=31536000; includeSubDomains"
          otherHeaders := [] }).severity = Severity.ok := by
  have h := hsts_maxage_parsing "example.com"
    { setCookie := []
      strictTransportSecurity := some "max-age=31536000; includeSubDomains"
      otherHeaders := [] } "max-age=31536000; includeSubDomains" rfl (by decide)
  exact ⟨h.2.2.2.1, h.2.2.2.2.2.2.1, h.2.2.2.2.2.2.2.1, h.2.2.2.2.2.2.2.2⟩

/-- The detection rule as the claim words it: scan only the segments
after the first `name=value` segment. -/
def hasSecureAfterFirst (s : String) : Bool :=
  ((cookieParts s).drop 1).any (fun part => lowerStr part = "secure")

/-- The detection rule as the claim words it, for `samesite`. -/
def hasSameSiteAfterFirst (s : String) : Bool :=
  ((cookieParts s).drop 1).any
    (fun part => charsStartWith (lowerStr part).data "samesite".data)

/-- C6 counterexample: the code scans every `;`-segment, including the
first `name=value` one.  On the single-segment header "secure" the
first segment is matched as the Secure attribute, and on
"samesiteid=1" the cookie-name segment is matched as a SameSite
attribute, while the claim's after-the-first-segment scan finds
nothing. -/
theorem cookie_scan_counterexample :
    hasSecure "secure" = true ∧ hasSecureAfterFirst "secure" = false ∧
    (analyzeCookie 0 "secure").1.secure = true ∧
    hasSameSite "samesiteid=1" = true ∧ hasSameSiteAfterFirst "samesiteid=1" = false ∧
    (analyzeCookie 0 "samesiteid=1").1.sameSite = true := by decide

/-- C6 amended: the `secure`, `httpOnly` and `sameSite` booleans are
determined by case-insensitively scanning ALL segments obtained by
splitting on ';' and trimming — the first `name=value` segment
included — for the exact token `secure`, the exact token `httponly`,
and any segment beginning with `samesite`. -/
theorem cookie_scan_all_segments (i : Nat) (s : String) :
    ((analyzeCookie i s).1.secure = true ↔
      ∃ part ∈ cookieParts s, lowerStr part = "secure") ∧
    ((analyzeCookie i s).1.httpOnly = true ↔
      ∃ part ∈ cookieParts s, lowerStr part = "httponly") ∧
    ((analyzeCookie i s).1.sameSite = true ↔
      ∃ part ∈ cookieParts s, charsStartWith (lowerStr part).data "samesite".data = true) ∧
    cookieParts s = (splitOnChar ';' s.data).map (fun l => (trimChars l).asString) := by
  refine ⟨?_, ?_, ?_, rfl⟩ <;>
    simp [analyzeCookie, hasSecure, hasHttpOnly, hasSameSite, List.any_eq_true]

/-- C10 counterexample: the two header values `"max-age=" ++ "1"` and
`"max-age=" ++ "preload" ++ "1"` differ only by the insertion of the
substring "preload", yet the second one breaks the `max-age=<digits>`
match (no digit follows the `=`), so `maxAge` parses as 1 versus 0 and
severity, status, issues, maxAge and maxAgeDays all change. -/
theorem preload_counterexample :
    (checkHSTSResponse "example.com"
        { setCookie := []
          strictTransportSecurity := some ("max-age=" ++ "1")
          otherHeaders := [] }).severity = Severity.warning ∧
    (checkHSTSResponse "example.com"
        { setCookie := []
          strictTransportSecurity := some ("max-age=" ++ "preload" ++ "1")
          otherHeaders := [] }).severity = Severity.critical ∧
    (checkHSTSResponse "example.com"
        { setCookie := []
          strictTransportSecurity := some ("max-age=" ++ "1")
          otherHeaders := [] }).status = "HSTS Weak Configuration" ∧
    (checkHSTSResponse "example.com"
        { setCookie := []
          strictTransportSecurity := some ("max-age=" ++ "preload" ++ "1")
          otherHeaders := [] }).status = "HSTS Misconfigured" ∧
    (checkHSTSResponse "example.com"
        { setCookie := []
          strictTransportSecurity := some ("max-age=" ++ "1")
          otherHeaders := [] }).details.maxAge = some 1 ∧
    (checkHSTSResponse "example.com"
        { setCookie := []
          strictTransportSecurity := some ("max-age=" ++ "preload" ++ "1")
          otherHeaders := [] }).details.maxAge = some 0 := by decide

/-- C10 amended: the preload flag itself never influences
classification — any two present header values that parse to the same
`maxAgeSeconds` and the same `includeSubDomains` detection produce
identical severity, status, message, issues, maxAge, maxAgeDays and
includeSubDomains (only the preload detail field and the echoed header
string may differ); however inserting the substring "preload" into a
header can change the `max-age` parse itself, so the original claim
fails. -/
theorem preload_classification_independence (domain s1 s2 : String)
    (h1 : s1 ≠ "") (h2 : s2 ≠ "")
    (hma : parseMaxAge s1 = parseMaxAge s2)
    (hsub : containsCI s1 "includesubdomains" = containsCI s2 "includesubdomains") :
    (hstsFromHeader domain s1).severity = (hstsFromHeader domain s2).severity ∧
    (hstsFromHeader domain s1).status = (hstsFromHeader domain s2).status ∧
    (hstsFromHeader domain s1).message = (hstsFromHeader domain s2).message ∧
    (hstsFromHeader domain s1).details.issues = (hstsFromHeader domain s2).details.issues ∧
    (hstsFromHeader domain s1).details.maxAge = (hstsFromHeader domain s2).details.maxAge ∧
    (hstsFromHeader domain s1).details.maxAgeDays =
      (hstsFromHeader domain s2).details.maxAgeDays ∧
    (hstsFromHeader domain s1).details.includeSubDomains =
      (hstsFromHeader domain s2).details.includeSubDomains ∧
    checkHSTSResponse domain
        { setCookie := [], strictTransportSecurity := some s1, otherHeaders := [] } =
      hstsFromHeader domain s1 ∧
    checkHSTSResponse domain
        { setCookie := [], strictTransportSecurity := some s2, otherHeaders := [] } =
      hstsFromHeader domain s2 := by
  refine ⟨?_, ?_, ?_, ?_, ?_, ?_, ?_,
    checkHSTSResponse_present domain _ s1 rfl h1,
    checkHSTSResponse_present domain _ s2 rfl h2⟩ <;>
    simp [hstsFromHeader, hma, hsub]

theorem preload_classification_independence_witness :
    parseMaxAge "max-age=31536000" = parseMaxAge "max-age=31536000; preload" ∧
    (hstsFromHeader "example.com" "max-age=31536000").severity =
      (hstsFromHeader "example.com" "max-age=31536000; preload").severity ∧
    (hstsFromHeader "example.com" "max-age=31536000").status =
      (hstsFromHeader "example.com" "max-age=31536000; preload").status :=
  ⟨by decide,
   (preload_classification_independence "example.com"
      "max-age=31536000" "max-age=31536000; preload"
      (by decide) (by decide) (by decide) (by decide)).1,
   (preload_classification_independence "example.com"
      "max-age=31536000" "max-age=31536000; preload"
      (by decide) (by decide) (by decide) (by decide)).2.1⟩

theorem missing_secure_contains (s : String) :
    ((cookieIssuesOf s).contains "Missing Secure flag") = !hasSecure s := by
  cases h1 : hasSecure s <;> cases h2 : hasHttpOnly s <;> cases h3 : hasSameSite s <;>
    simp [cookieIssuesOf, h1, h2, h3]

theorem cookieIssuesOf_eq_nil (s : String) :
    cookieIssuesOf s = [] ↔
      (hasSecure s = true ∧ hasHttpOnly s = true ∧ hasSameSite s = true) := by
  cases h1 : hasSecure s <;> cases h2 : hasHttpOnly s <;> cases h3 : hasSameSite s <;>
    simp [cookieIssuesOf, h1, h2, h3]

theorem cookieIssuesOf_ne_nil_of_not_secure (s : String) (h : hasSecure s = false) :
    cookieIssuesOf s ≠ [] := by
  intro hnil
  rw [cookieIssuesOf_eq_nil] at hnil
  rw [hnil.1] at h
  simp at h

theorem analyzeCookie_snd_none (i : Nat) (s : String) (h : cookieIssuesOf s = []) :
    (analyzeCookie i s).2 = none := by
  simp [analyzeCookie, h]

theorem analyzeCookie_snd_some (i : Nat) (s : String) (h : cookieIssuesOf s ≠ []) :
    (analyzeCookie i s).2 =
      some { name := displayName i s, issues := cookieIssuesOf s, raw := rawOf s } := by
  simp [analyzeCookie, List.length_pos.mpr h]

theorem issues_nil_iff (i : Nat) (hs : List String) :
    ((analyzeAll i hs).filterMap Prod.snd = []) ↔ ∀ h ∈ hs, cookieIssuesOf h = [] := by
  induction hs generalizing i with
  | nil => simp [analyzeAll]
  | cons h t ih =>
    rw [analyzeAll]
    by_cases hc : cookieIssuesOf h = []
    · rw [List.filterMap_cons_none (analyzeCookie_snd_none i h hc)]
      simp [ih (i + 1), hc]
    · rw [List.filterMap_cons_some (analyzeCookie_snd_some i h hc)]
      simp [hc]

theorem noSecure_le (i : Nat) (hs : List String) :
    (((analyzeAll i hs).filterMap Prod.snd).filter
        (fun x => x.issues.contains "Missing Secure flag")).length ≤ hs.length := by
  calc (((analyzeAll i hs).filterMap Prod.snd).filter
        (fun x => x.issues.contains "Missing Secure flag")).length
      ≤ ((analyzeAll i hs).filterMap Prod.snd).length := List.length_filter_le _ _
    _ ≤ (analyzeAll i hs).length := List.length_filterMap_le _ _
    _ = hs.length := analyzeAll_length i hs

theorem noSecure_count (i : Nat) (hs : List String) :
    ((((analyzeAll i hs).filterMap Prod.snd).filter
        (fun x => x.issues.contains "Missing Secure flag")).length = hs.length) ↔
      ∀ h ∈ hs, hasSecure h = false := by
  induction hs generalizing i with
  | nil => simp [analyzeAll]
  | cons h t ih =>
    rw [analyzeAll]
    by_cases hsec : hasSecure h = true
    · have hbound := noSecure_le (i + 1) t
      by_cases hc : cookieIssuesOf h = []
      · rw [List.filterMap_cons_none (analyzeCookie_snd_none i h hc)]
        constructor
        · intro hlen
          exfalso
          rw [List.length_cons] at hlen
          omega
        · intro hall
          exact absurd (hall h (by simp)) (by simp [hsec])
      · rw [List.filterMap_cons_some (analyzeCookie_snd_some i h hc)]
        have hhead : (({ name := displayName i h, issues := cookieIssuesOf h, raw := rawOf h } : CookieIssue).issues.contains "Missing Secure flag") = false := by
          show (cookieIssuesOf h).contains "Missing Secure flag" = false
          rw [missing_secure_contains, hsec]
          rfl
        rw [List.filter_cons, if_neg (fun hcontra => by rw [hcontra] at hhead; simp at hhead)]
        constructor
        · intro hlen
          exfalso
          rw [List.length_cons] at hlen
          omega
        · intro hall
          exact absurd (hall h (by simp)) (by simp [hsec])
    · have hsec' : hasSecure h = false := by simpa using hsec
      have hc := cookieIssuesOf_ne_nil_of_not_secure h hsec'
      rw [List.filterMap_cons_some (analyzeCookie_snd_some i h hc)]
      have hhead : (({ name := displayName i h, issues := cookieIssuesOf h, raw := rawOf h } : CookieIssue).issues.contains "Missing Secure flag") = true := by
        show (cookieIssuesOf h).contains "Missing Secure flag" = true
        rw [missing_secure_contains, hsec']
        rfl
      rw [List.filter_cons, if_pos hhead]
      rw [List.length_cons, List.length_cons]
      constructor
      · intro hlen
        intro x hx
        rcases List.mem_cons.mp hx with rfl | hx'
        · exact hsec'
        · exact ((ih (i + 1)).mp (by omega)) x hx'
      · intro hall
        have := (ih (i + 1)).mpr (fun x hx => hall x (List.mem_cons_of_mem _ hx))
        omega

theorem checkCookiesResponse_fields (domain : String) (hs : List String) (hne : hs ≠ []) :
    (checkCookiesResponse domain hs).severity =
      (if ((analyzeAll 0 hs).filterMap Prod.snd).length > 0 then
        if (((analyzeAll 0 hs).filterMap Prod.snd).filter
            (fun x => x.issues.contains "Missing Secure flag")).length = hs.length
        then Severity.critical else Severity.warning
      else Severity.ok) ∧
    (checkCookiesResponse domain hs).status =
      (if ((analyzeAll 0 hs).filterMap Prod.snd).length > 0 then
        if (((analyzeAll 0 hs).filterMap Prod.snd).filter
            (fun x => x.issues.contains "Missing Secure flag")).length = hs.length
        then "Critical Security Issues" else "Security Issues Found"
      else "All Cookies Secure") := by
  have h0 : ¬ hs.length = 0 := by simpa [List.length_eq_zero] using hne
  rw [checkCookiesResponse, if_neg h0]
  exact ⟨rfl, rfl⟩

/-- C1: aggregate severity of the cookie Finding.  Zero `Set-Cookie`
occurrences give severity `ok` with `cookieCount 0`; every cookie
missing the Secure flag gives `critical` / "Critical Security Issues";
at least one Secure cookie together with at least one cookie having a
missing attribute gives `warning` / "Security Issues Found"; no missing
attribute on any cookie gives `ok` / "All Cookies Secure". -/
theorem cookie_severity_aggregation (domain : String) (hs : List String) :
    (hs = [] →
      (checkCookiesResponse domain hs).severity = Severity.ok ∧
      (checkCookiesResponse domain hs).cookieCount = 0) ∧
    (hs ≠ [] → (∀ h ∈ hs, hasSecure h = false) →
      (checkCookiesResponse domain hs).severity = Severity.critical ∧
      (checkCookiesResponse domain hs).status = "Critical Security Issues") ∧
    ((∃ h ∈ hs, hasSecure h = true) → (∃ h ∈ hs, cookieIssuesOf h ≠ []) →
      (checkCookiesResponse domain hs).severity = Severity.warning ∧
      (checkCookiesResponse domain hs).status = "Security Issues Found") ∧
    (hs ≠ [] → (∀ h ∈ hs, cookieIssuesOf h = []) →
      (checkCookiesResponse domain hs).severity = Severity.ok ∧
      (checkCookiesResponse domain hs).status = "All Cookies Secure") := by
  refine ⟨?_, ?_, ?_, ?_⟩
  · rintro rfl
    exact ⟨rfl, rfl⟩
  · intro hne hall
    obtain ⟨h0, hmem⟩ := List.exists_mem_of_ne_nil hs hne
    have hnnil : (analyzeAll 0 hs).filterMap Prod.snd ≠ [] := by
      intro hnil
      exact cookieIssuesOf_ne_nil_of_not_secure h0 (hall h0 hmem)
        ((issues_nil_iff 0 hs).mp hnil h0 hmem)
    have hlen : ((analyzeAll 0 hs).filterMap Prod.snd).length > 0 :=
      List.length_pos.mpr hnnil
    have hcnt := (noSecure_count 0 hs).mpr hall
    obtain ⟨hsev, hstat⟩ := checkCookiesResponse_fields domain hs hne
    rw [hsev, hstat, if_pos hlen, if_pos hlen, if_pos hcnt, if_pos hcnt]
    exact ⟨rfl, rfl⟩
  · intro hex hmiss
    obtain ⟨hx, hxmem, hxsec⟩ := hex
    have hne : hs ≠ [] := List.ne_nil_of_mem hxmem
    have hnnil : (analyzeAll 0 hs).filterMap Prod.snd ≠ [] := by
      intro hnil
      obtain ⟨hm, hmmem, hmne⟩ := hmiss
      exact hmne ((issues_nil_iff 0 hs).mp hnil hm hmmem)
    have hlen : ((analyzeAll 0 hs).filterMap Prod.snd).length > 0 :=
      List.length_pos.mpr hnnil
    have hcnt : ¬ (((analyzeAll 0 hs).filterMap Prod.snd).filter
        (fun x => x.issues.contains "Missing Secure flag")).length = hs.length := by
      intro heq
      have := (noSecure_count 0 hs).mp heq hx hxmem
      rw [hxsec] at this
      simp at this
    obtain ⟨hsev, hstat⟩ := checkCookiesResponse_fields domain hs hne
    rw [hsev, hstat, if_pos hlen, if_pos hlen, if_neg hcnt, if_neg hcnt]
    exact ⟨rfl, rfl⟩
  · intro hne hnone
    have hnil : (analyzeAll 0 hs).filterMap Prod.snd = [] :=
      (issues_nil_iff 0 hs).mpr hnone
    have hlen : ¬ ((analyzeAll 0 hs).filterMap Prod.snd).length > 0 := by
      rw [hnil]
      simp
    obtain ⟨hsev, hstat⟩ := checkCookiesResponse_fields domain hs hne
    rw [hsev, hstat, if_neg hlen, if_neg hlen]
    exact ⟨rfl, rfl⟩

theorem cookie_severity_aggregation_witness :
    ((checkCookiesResponse "example.com" []).severity = Severity.ok ∧
     (checkCookiesResponse "example.com" []).cookieCount = 0) ∧
    ((checkCookiesResponse "example.com" ["a=1", "b=2; HttpOnly"]).severity =
        Severity.critical ∧
     (checkCookiesResponse "example.com" ["a=1", "b=2; HttpOnly"]).status =
        "Critical Security Issues") ∧
    ((checkCookiesResponse "example.com" ["a=1; Secure", "b=2"]).severity =
        Severity.warning ∧
     (checkCookiesResponse "example.com" ["a=1; Secure", "b=2"]).status =
        "Security Issues Found") ∧
    ((checkCookiesResponse "example.com"
        ["a=1; Secure; HttpOnly; SameSite=Lax"]).severity = Severity.ok ∧
     (checkCookiesResponse "example.com"
        ["a=1; Secure; HttpOnly; SameSite=Lax"]).status = "All Cookies Secure") :=
  ⟨(cookie_severity_aggregation "example.com" []).1 rfl,
   (cookie_severity_aggregation "example.com" ["a=1", "b=2; HttpOnly"]).2.1
     (by decide) (by decide),
   (cookie_severity_aggregation "example.com" ["a=1; Secure", "b=2"]).2.2.1
     (by decide) (by decide),
   (cookie_severity_aggregation "example.com"
      ["a=1; Secure; HttpOnly; SameSite=Lax"]).2.2.2 (by decide) (by decide)⟩
